import Mathlib

/-!
Verification development for the QIA self-healing locator and
test-failure classification engine.

Shallow embedding of:
  - `ExecutorAgent` (src/agents/executor-agent.ts): report parsing and
    evidence reconciliation,
  - `RCAAgent` (strategist/RCA source file): rule-based failure
    classification and analysis assembly,
  - `HealerAgent` (healer source file): brittle-locator detection, the
    three healing tiers, the per-file healing pass and the bounded
    heal-and-rerun loop.

External primitives (the JavaScript JSON parser, the filesystem, the
generative model's replies, the test runner's re-execution outcomes) are
modelled as explicit parameters; everything else is translated directly
from the TypeScript source.
-/

namespace QIA

/-! ### String helpers (JavaScript primitives used by the source) -/

/-- Single-quote character (code 39). -/
def sqC : Char := Char.ofNat 39

/-- Double-quote character (code 34). -/
def dqC : Char := Char.ofNat 34

/-- Single-quote as a string, used to build locator expressions. -/
def sq : String := String.mk [sqC]

/-- Quote-class `['"]` from the healer's regular expressions. -/
def isQuote (c : Char) : Bool := c = sqC || c = dqC

/-- Character class `[\w-]` (word character or hyphen). -/
def isWordDash (c : Char) : Bool := c.isAlphanum || c = '_' || c = '-'

/-- JavaScript `String.prototype.includes` on char lists. -/
def listIncludes (pat : List Char) : List Char → Bool
  | [] => pat.isEmpty
  | c :: rest => pat.isPrefixOf (c :: rest) || listIncludes pat rest

/-- JavaScript `String.prototype.includes`. -/
def strIncludes (s pat : String) : Bool := listIncludes pat.data s.data

/-- `toLowerCase` (character-wise; the source only deals with ASCII).
Implemented structurally over the char list so that proofs can evaluate
it. -/
def lowerStr (s : String) : String := String.mk (s.data.map Char.toLower)

/-- `startsWith` implemented structurally over char lists. -/
def startsWithStr (s pat : String) : Bool := pat.data.isPrefixOf s.data

/-- `slice(0, n)` / truncation implemented structurally. -/
def takeStr (s : String) (n : Nat) : String := String.mk (s.data.take n)

/-- `trim`: strip leading and trailing whitespace, structurally. -/
def trimStr (s : String) : String :=
  String.mk (((s.data.dropWhile Char.isWhitespace).reverse.dropWhile
    Char.isWhitespace).reverse)

/-! ### Failure records and RCA data model

Field shapes are taken from the construction sites in
`ExecutorAgent.parseReport` and `RCAAgent.analyze`. -/

/-- One entry of the captured network log: method, URL, optional status
and response time (fields may be absent in the captured JSON). -/
structure NetworkRequest where
  method : Option String
  url : Option String
  status : Option Int
  responseTime : Option Int
deriving DecidableEq

/-- The closed five-value root-cause category enum (`RCACategory`). -/
inductive RCACategory where
  | uiIssue
  | frontendIssue
  | backendIssue
  | dataIssue
  | environmentIssue
deriving DecidableEq

/-- `RCAResult` as assembled by `RCAAgent.analyze`. -/
structure RCAResult where
  testName : String
  category : RCACategory
  reason : String
  consoleErrors : List String
  apiLog : String
  suggestedFix : String
  assignTo : String
  screenshotPath : Option String
deriving DecidableEq

/-- `FailedTest` as synthesized by `ExecutorAgent.parseReport`. -/
structure FailedTest where
  title : String
  file : String
  error : String
  screenshotPath : Option String
  fullPageScreenshotPath : Option String
  consoleErrors : List String
  networkRequests : List NetworkRequest
  domSnapshot : Option String
  rca : Option RCAResult
deriving DecidableEq

/-- `TestEvidence` as written by the injected evidence-capture hook and
read back by `ExecutorAgent.enrichWithEvidence` / `RCAAgent.analyze`.
Fields are optional because the reader guards each with `??`. -/
structure TestEvidence where
  screenshotPath : Option String
  consoleErrors : Option (List String)
  networkRequests : Option (List NetworkRequest)
  domSnapshot : Option String
deriving DecidableEq

/-! ### RCAAgent.classifyIssue (rule cascade) -/

/-- `RCAAgent.classifyIssue`: ordered rule cascade over the lower-cased
error text, the joined lower-cased console errors, and the network log.
Translated check for check from the source. -/
def classifyIssue (failedTest : FailedTest) (consoleErrors : List String)
    (networkRequests : List NetworkRequest) : RCACategory :=
  let error := lowerStr failedTest.error
  let consoleStr := lowerStr (String.intercalate " " consoleErrors)
  if strIncludes error "net::err" || strIncludes error "econnrefused" ||
      strIncludes error "ssl" || strIncludes error "timeout" ||
      strIncludes error "navigation timeout" || strIncludes error "page crashed" then
    .environmentIssue
  else if networkRequests.any (fun r =>
      r.status.any (fun s => decide (400 ≤ s)) ||
      r.responseTime.any (fun t => decide (3000 < t))) then
    .backendIssue
  else if strIncludes consoleStr "uncaught" || strIncludes consoleStr "referenceerror" ||
      strIncludes consoleStr "typeerror" || strIncludes consoleStr "syntaxerror" ||
      decide (0 < consoleErrors.length) then
    .frontendIssue
  else if (strIncludes error "expected" &&
        (strIncludes error "received" || strIncludes error "to be" ||
         strIncludes error "to equal")) ||
      strIncludes error "wrong" || strIncludes error "mismatch" then
    .dataIssue
  else
    .uiIssue

/-- Claim-side predicate: the error text carries one of the environment
signatures the cascade's first rule checks (the source's exact list). -/
def envSignature (errorText : String) : Bool :=
  let e := lowerStr errorText
  strIncludes e "net::err" || strIncludes e "econnrefused" ||
  strIncludes e "ssl" || strIncludes e "timeout" ||
  strIncludes e "navigation timeout" || strIncludes e "page crashed"

/-- Claim-side predicate: some captured request has HTTP status ≥ 400 or
response time above 3000 ms (the cascade's second rule). -/
def hasApiError (networkRequests : List NetworkRequest) : Bool :=
  networkRequests.any (fun r =>
    r.status.any (fun s => decide (400 ≤ s)) ||
    r.responseTime.any (fun t => decide (3000 < t)))

/-! ### RCAAgent.analyze -/

/-- `RCAAgent.getAssignee`: fixed category-to-role table. -/
def getAssignee : RCACategory → String
  | .uiIssue => "QA Engineer"
  | .frontendIssue => "Frontend Developer"
  | .backendIssue => "Backend Developer"
  | .dataIssue => "QA Engineer / Data Team"
  | .environmentIssue => "DevOps / Environment Team"

/-- Display name of a category, as the TypeScript string-union values. -/
def categoryName : RCACategory → String
  | .uiIssue => "UI Issue"
  | .frontendIssue => "Frontend Issue"
  | .backendIssue => "Backend Issue"
  | .dataIssue => "Data Issue"
  | .environmentIssue => "Environment Issue"

/-- `RCAAgent.defaultReason`: deterministic fallback reason text. -/
def defaultReason (failedTest : FailedTest) (category : RCACategory) : String :=
  let errorFirst := ((failedTest.error.splitOn "\n").head?).getD failedTest.error
  (categoryName category) ++ " detected: " ++ takeStr errorFirst 200

/-- `RCAAgent.defaultFix`: deterministic fallback fix text. -/
def defaultFix : RCACategory → String
  | .uiIssue => "Verify element locators and page structure match the current DOM"
  | .frontendIssue => "Check browser console errors and fix JavaScript runtime issues"
  | .backendIssue => "Investigate API response codes and server-side error logs"
  | .dataIssue => "Review test data and expected values against current application state"
  | .environmentIssue => "Check application availability, network connectivity, and SSL certificates"

/-- `RCAAgent.formatApiLog`: renders the first eight network entries. -/
def formatApiLog (requests : List NetworkRequest) : String :=
  if requests.isEmpty then "No API calls captured"
  else
    String.intercalate ", " ((requests.take 8).map (fun r =>
      let urlFull := r.url.getD ""
      let urlShort := ((urlFull.splitOn "?").head?).getD urlFull
      let status := match r.status with
        | some s => toString s
        | none => "?"
      let time := match r.responseTime with
        | some t => toString t ++ "ms"
        | none => "?ms"
      (r.method.getD "GET") ++ " " ++ urlShort ++ " → " ++ status ++ " (" ++ time ++ ")"))

/-- Outcome of the generative collaborator call inside
`RCAAgent.getAIAnalysis`: `none` models the call or the JSON parse of its
reply throwing; `some (reason?, fix?)` models a parsed reply whose two
fields may each be absent. -/
def AIAnalysisOutcome : Type := Option (Option String × Option String)

/-- `RCAAgent.getAIAnalysis` after the external call: resolve the reply
to a (reason, fix) pair, substituting the deterministic defaults on any
failure, exactly as the source's `??` chain and `catch` do. -/
def resolveAIAnalysis (failedTest : FailedTest) (category : RCACategory)
    (outcome : AIAnalysisOutcome) : String × String :=
  match outcome with
  | some (r, f) =>
    (r.getD (defaultReason failedTest category), f.getD (defaultFix category))
  | none => (defaultReason failedTest category, defaultFix category)

/-- `RCAAgent.analyze`: resolve evidence-or-record inputs, classify,
then attach the generative reason/fix (with deterministic fallbacks). -/
def analyze (failedTest : FailedTest) (evidence : Option TestEvidence)
    (outcome : AIAnalysisOutcome) : RCAResult :=
  let consoleErrors := (evidence.bind TestEvidence.consoleErrors).getD failedTest.consoleErrors
  let networkRequests := (evidence.bind TestEvidence.networkRequests).getD failedTest.networkRequests
  let screenshotPath := ((evidence.bind TestEvidence.screenshotPath).orElse
    (fun _ => failedTest.fullPageScreenshotPath)).orElse (fun _ => failedTest.screenshotPath)
  let category := classifyIssue failedTest consoleErrors networkRequests
  let ai := resolveAIAnalysis failedTest category outcome
  { testName := failedTest.title
    category := category
    reason := ai.1
    consoleErrors := consoleErrors
    apiLog := formatApiLog networkRequests
    suggestedFix := ai.2
    assignTo := getAssignee category
    screenshotPath := screenshotPath }

/-! ### Playwright JSON report shapes (executor-agent.ts, top of file) -/

/-- Runner-reported status of a test or of one attempt. -/
inductive PwStatus where
  | passed
  | failed
  | skipped
  | timedOut
deriving DecidableEq

/-- One attachment of an attempt (`name`, optional `path`, `contentType`). -/
structure PwAttachment where
  name : String
  path : Option String
  contentType : String
deriving DecidableEq

/-- The `error` field of an attempt (`message?`, `stack?`). -/
structure PwError where
  message : Option String
  stack : Option String
deriving DecidableEq

/-- One recorded attempt (`PwTestResult`). -/
structure PwTestResult where
  status : PwStatus
  error : Option PwError
  attachments : Option (List PwAttachment)
  duration : Nat
deriving DecidableEq

/-- One test (`PwTest`): a test-level status and an optional attempts list. -/
structure PwTest where
  status : PwStatus
  results : Option (List PwTestResult)
deriving DecidableEq

/-- One spec (`PwSpec`): title, file (the guard `spec.file ?? targetFile`
treats it as possibly absent), and an optional tests list. -/
structure PwSpec where
  title : String
  file : Option String
  ok : Bool
  tests : Option (List PwTest)
deriving DecidableEq

/-- The suite tree (`PwSuite`): title, optional specs, optional child suites. -/
inductive PwSuite where
  | mk (title : String) (specs : Option (List PwSpec)) (suites : Option (List PwSuite))

/-- Top-level aggregate counts (`stats`), each guarded by `?? 0` in the source. -/
structure PwStats where
  expected : Option Nat
  unexpected : Option Nat
  skipped : Option Nat
  duration : Option Nat
deriving DecidableEq

/-- The runner's JSON report (`PwJsonReport`); `stats` is truth-tested and
`suites` is guarded by `?? []` in the source. -/
structure PwJsonReport where
  stats : Option PwStats
  suites : Option (List PwSuite)

/-! ### ExecutorAgent.parseReport -/

/-- Accumulated tallies of the `parseReport` traversal. -/
structure ParseTally where
  passed : Nat
  failed : Nat
  skipped : Nat
  failedTests : List FailedTest
deriving DecidableEq

/-- JavaScript truthiness of an optional string (`a.path` in a find
predicate): present and non-empty. -/
def pathTruthy (p : Option String) : Bool :=
  match p with
  | some s => !s.isEmpty
  | none => false

/-- Body of the `for (const test of spec.tests ?? [])` loop of
`visitSpec`: count one test by the status of its last recorded attempt
(falling back to the test-level status), synthesizing a `FailedTest` for
anything neither passed nor skipped. -/
def visitTest (targetFile title : String) (file : Option String)
    (acc : ParseTally) (t : PwTest) : ParseTally :=
  let lastResult := t.results.bind List.getLast?
  let status := (lastResult.map PwTestResult.status).getD t.status
  if status = .passed then
    { acc with passed := acc.passed + 1 }
  else if status = .skipped then
    { acc with skipped := acc.skipped + 1 }
  else
    let errMsg := (((lastResult.bind PwTestResult.error).bind PwError.message).orElse
      (fun _ => (lastResult.bind PwTestResult.error).bind PwError.stack)).getD "Unknown error"
    let screenshotAttachment := ((lastResult.bind PwTestResult.attachments).getD []).find?
      (fun a => startsWithStr a.contentType "image/" && pathTruthy a.path)
    let fullPageAttachment := ((lastResult.bind PwTestResult.attachments).getD []).find?
      (fun a => a.name = "full-page-screenshot" && pathTruthy a.path)
    let ft : FailedTest :=
      { title := title
        file := file.getD targetFile
        error := takeStr errMsg 500
        screenshotPath := screenshotAttachment.bind PwAttachment.path
        fullPageScreenshotPath := fullPageAttachment.bind PwAttachment.path
        consoleErrors := []
        networkRequests := []
        domSnapshot := none
        rca := none }
    { acc with failed := acc.failed + 1, failedTests := acc.failedTests ++ [ft] }

/-- `visitSpec` of `parseReport`: fold `visitTest` over the spec's tests. -/
def visitSpec (targetFile : String) (acc : ParseTally) (sp : PwSpec) : ParseTally :=
  (sp.tests.getD []).foldl (visitTest targetFile sp.title sp.file) acc

mutual

/-- `visitSuite` of `parseReport`: visit the specs, then the child suites. -/
def visitSuite (targetFile : String) (acc : ParseTally) : PwSuite → ParseTally
  | .mk _ specs none => (specs.getD []).foldl (visitSpec targetFile) acc
  | .mk _ specs (some children) =>
    visitSuiteList targetFile ((specs.getD []).foldl (visitSpec targetFile) acc) children

/-- Left-to-right traversal of a list of sibling suites. -/
def visitSuiteList (targetFile : String) (acc : ParseTally) : List PwSuite → ParseTally
  | [] => acc
  | s :: rest => visitSuiteList targetFile (visitSuite targetFile acc s) rest

end

/-- `ExecutorAgent.parseReport`: traverse the suite tree; if the
traversal produced all-zero counts and the report carries stats, fall
back to the aggregate counts. -/
def parseReport (report : PwJsonReport) (targetFile : String) : ParseTally :=
  let t := visitSuiteList targetFile ⟨0, 0, 0, []⟩ (report.suites.getD [])
  if t.passed = 0 ∧ t.failed = 0 ∧ t.skipped = 0 then
    match report.stats with
    | some st =>
      { t with passed := st.expected.getD 0, failed := st.unexpected.getD 0,
               skipped := st.skipped.getD 0 }
    | none => t
  else t

/-! ### ExecutorAgent.parseJsonString -/

/-- `ExecutorAgent.parseJsonString`. The platform JSON parser plus the
shape cast is the external primitive `decode` (returning `none` where
`JSON.parse` would throw); the guard logic — empty stream, first `{`
boundary — is the source's. -/
def parseJsonString (decode : String → Option PwJsonReport) (raw : String) :
    Option PwJsonReport :=
  if (trimStr raw).data.isEmpty then none
  else
    match raw.data.findIdx? (fun c => c = '{') with
    | none => none
    | some jsonStart => decode (raw.drop jsonStart)

/-! ### ExecutorAgent.findEvidenceFile / enrichWithEvidence -/

/-- The evidence directory as seen by `findEvidenceFile`: whether the
directory exists, its file names, and the readable content of each file
(`none` models `readFileSync` throwing). -/
structure EvidenceDir where
  present : Bool
  files : List String
  content : String → Option String

/-- Worker for `collapseNonAlnum`; the flag records whether the current
position is inside a run that already emitted its separator. -/
def collapseAux : Bool → List Char → List Char
  | _, [] => []
  | inRun, c :: rest =>
    if c.isLower || c.isDigit then c :: collapseAux false rest
    else if inRun then collapseAux true rest
    else '-' :: collapseAux true rest

/-- Collapse every maximal run of characters outside `[a-z0-9]` into a
single hyphen (the `replace(/[^a-z0-9]+/g, "-")` step, applied to the
already lower-cased title). -/
def collapseNonAlnum (l : List Char) : List Char := collapseAux false l

/-- Slug derivation shared by the evidence writer and the reconciler:
lower-case, collapse non-alphanumeric runs to hyphens, strip one leading
and one trailing hyphen (the `replace(/^-|-$/g, "")` step). -/
def slugify (title : String) : String :=
  let collapsed := collapseNonAlnum (lowerStr title).data
  let noLead := if collapsed.head? = some '-' then collapsed.drop 1 else collapsed
  let noTrail := if noLead.getLast? = some '-' then noLead.dropLast else noLead
  String.mk noTrail

/-- `path.basename(f, ".json")`: strip the `.json` suffix unless it is
the entire name. -/
def basenameNoJson (f : String) : String :=
  if f ≠ ".json" && List.isSuffixOf ".json".data f.data then
    String.mk (f.data.take (f.data.length - 5))
  else f

/-- `ExecutorAgent.findEvidenceFile`: exact slug-named file first, then
the fuzzy prefix fallback over the directory listing. -/
def findEvidenceFile (d : EvidenceDir) (testTitle : String) : Option String :=
  let slug := slugify testTitle
  let candidate := slug ++ ".json"
  if d.present && d.files.contains candidate then some candidate
  else if !d.present then none
  else
    d.files.find? (fun f =>
      let base := basenameNoJson f
      startsWithStr slug base || startsWithStr base (takeStr slug 15))

/-- Per-record body of `ExecutorAgent.enrichWithEvidence`: overlay the
matched evidence file's fields onto the record, each guarded by `??`;
any lookup, read or parse failure leaves the record unchanged. -/
def enrichOne (d : EvidenceDir) (parseEvidence : String → Option TestEvidence)
    (ft : FailedTest) : FailedTest :=
  match findEvidenceFile d ft.title with
  | none => ft
  | some name =>
    match d.content name with
    | none => ft
    | some raw =>
      match parseEvidence raw with
      | none => ft
      | some evidence =>
        { ft with
          fullPageScreenshotPath :=
            evidence.screenshotPath.orElse (fun _ => ft.fullPageScreenshotPath)
          consoleErrors := evidence.consoleErrors.getD ft.consoleErrors
          networkRequests := evidence.networkRequests.getD ft.networkRequests
          domSnapshot := evidence.domSnapshot.orElse (fun _ => ft.domSnapshot) }

/-- `ExecutorAgent.enrichWithEvidence`: map the overlay over the records. -/
def enrichWithEvidence (d : EvidenceDir) (parseEvidence : String → Option TestEvidence)
    (failedTests : List FailedTest) : List FailedTest :=
  failedTests.map (enrichOne d parseEvidence)

/-! ### ExecutorAgent.executeTest -/

/-- `TestExecutionResult` as assembled by `executeTest`. -/
structure TestExecutionResult where
  filePath : String
  type : String
  passed : Nat
  failed : Nat
  skipped : Nat
  total : Nat
  durationMs : Nat
  failedTests : List FailedTest
  healAttempts : Nat
  ultimatelyPassed : Bool
deriving DecidableEq

/-- `ExecutorAgent.executeTest` after capturing the runner's stdout:
`raw` is the captured stream, `exitedOk` whether the runner process
exited zero. The function is total — every path returns a result. -/
def executeTest (decode : String → Option PwJsonReport) (d : EvidenceDir)
    (parseEvidence : String → Option TestEvidence) (raw : String) (exitedOk : Bool)
    (filePath testType : String) (durationMs : Nat) : TestExecutionResult :=
  match parseJsonString decode raw with
  | none =>
    { filePath := filePath, type := testType, passed := 0
      failed := if exitedOk then 0 else 1, skipped := 0, total := 1
      durationMs := durationMs, failedTests := [], healAttempts := 0
      ultimatelyPassed := exitedOk }
  | some report =>
    let t := parseReport report filePath
    let enriched := enrichWithEvidence d parseEvidence t.failedTests
    { filePath := filePath, type := testType, passed := t.passed
      failed := t.failed, skipped := t.skipped
      total := t.passed + t.failed + t.skipped
      durationMs := durationMs, failedTests := enriched, healAttempts := 0
      ultimatelyPassed := decide (t.failed = 0) }

/-! ### HealerAgent: detection patterns

The three detection regexes of `detectBrokenLocators` and the token
extractors of `healTier1` / `healTier2`, implemented with JavaScript
regex semantics: leftmost match, one-character advance on failure,
greedy character-class runs (backtracking can never succeed for these
patterns because the closing characters are excluded from the classes). -/

/-- The literal head every detection pattern starts with. -/
def pageLocHead : String := "page.locator("

/-- Strip a literal char-list from the front, or fail. -/
def stripL (p s : List Char) : Option (List Char) :=
  if p.isPrefixOf s then some (s.drop p.length) else none

/-- Tail of pattern 1, `['"]\.[\w-]+['"]\)`, matched after the literal
head: returns the matched tail and the remainder. -/
def tailPat1 (r1 : List Char) : Option (List Char × List Char) :=
  match r1 with
  | q :: '.' :: rest2 =>
    if isQuote q then
      let run := rest2.takeWhile isWordDash
      if run.isEmpty then none
      else
        match rest2.drop run.length with
        | q2 :: ')' :: rem =>
          if isQuote q2 then some (q :: '.' :: (run ++ [q2, ')']), rem) else none
        | _ => none
    else none
  | _ => none

/-- Tail of pattern 2, `['"]#[\w-]+['"]\)`. -/
def tailPat2 (r1 : List Char) : Option (List Char × List Char) :=
  match r1 with
  | q :: '#' :: rest2 =>
    if isQuote q then
      let run := rest2.takeWhile isWordDash
      if run.isEmpty then none
      else
        match rest2.drop run.length with
        | q2 :: ')' :: rem =>
          if isQuote q2 then some (q :: '#' :: (run ++ [q2, ')']), rem) else none
        | _ => none
    else none
  | _ => none

/-- Tail of pattern 3, `['"]\/\/[^'"]+['"]\)`. -/
def tailPat3 (r1 : List Char) : Option (List Char × List Char) :=
  match r1 with
  | q :: '/' :: '/' :: rest2 =>
    if isQuote q then
      let run := rest2.takeWhile (fun c => !isQuote c)
      if run.isEmpty then none
      else
        match rest2.drop run.length with
        | q2 :: ')' :: rem =>
          if isQuote q2 then some (q :: '/' :: '/' :: (run ++ [q2, ')']), rem) else none
        | _ => none
    else none
  | _ => none

/-- Anchor a tail pattern behind the literal `page.locator(` head. -/
def tryHeadThen (tail : List Char → Option (List Char × List Char)) (s : List Char) :
    Option (List Char × List Char) :=
  match stripL pageLocHead.data s with
  | none => none
  | some r1 =>
    match tail r1 with
    | none => none
    | some (mt, rem) => some (pageLocHead.data ++ mt, rem)

/-- Try `/page\.locator\(['"]\.[\w-]+['"]\)/` at the head of `s`,
returning the matched text and the remainder after it. -/
def tryLocPat1 (s : List Char) : Option (List Char × List Char) :=
  tryHeadThen tailPat1 s

/-- Try `/page\.locator\(['"]#[\w-]+['"]\)/` at the head of `s`. -/
def tryLocPat2 (s : List Char) : Option (List Char × List Char) :=
  tryHeadThen tailPat2 s

/-- Try `/page\.locator\(['"]\/\/[^'"]+['"]\)/` at the head of `s`. -/
def tryLocPat3 (s : List Char) : Option (List Char × List Char) :=
  tryHeadThen tailPat3 s

/-- Global scan (`String.match` with the `g` flag): collect successive
leftmost non-overlapping matches, advancing one character when the
pattern does not match at the current position. Fuel equals the input
length, which suffices because every match consumes at least one
character. -/
def scanAllAux (tryM : List Char → Option (List Char × List Char)) :
    Nat → List Char → List String
  | 0, _ => []
  | _ + 1, [] => []
  | fuel + 1, c :: rest =>
    match tryM (c :: rest) with
    | some (m, rem) => String.mk m :: scanAllAux tryM fuel rem
    | none => scanAllAux tryM fuel rest

/-- All matches of a pattern in a char list. -/
def scanAll (tryM : List Char → Option (List Char × List Char)) (s : List Char) :
    List String :=
  scanAllAux tryM s.length s

/-- Order-preserving first-occurrence deduplication (`[...new Set(...)]`). -/
def dedupAux : List String → List String → List String
  | _, [] => []
  | seen, x :: xs =>
    if seen.contains x then dedupAux seen xs else x :: dedupAux (x :: seen) xs

/-- Order-preserving deduplication. -/
def dedup (l : List String) : List String := dedupAux [] l

/-- `HealerAgent.detectBrokenLocators`: all matches of the three brittle
patterns, in pattern order, deduplicated. -/
def detectBrokenLocators (content : String) : List String :=
  dedup (scanAll tryLocPat1 content.data ++ scanAll tryLocPat2 content.data ++
    scanAll tryLocPat3 content.data)

/-! ### HealerAgent: the three healing tiers -/

/-- First match of `/\.([a-zA-Z][\w-]*)/`: the captured group, i.e. the
letter after the first dot-letter occurrence together with the greedy
word-or-hyphen run after it. -/
def cssTokenAux : List Char → Option String
  | [] => none
  | c :: rest =>
    if c = '.' then
      match rest with
      | [] => none
      | d :: rest2 =>
        if d.isAlpha then some (String.mk (d :: rest2.takeWhile isWordDash))
        else cssTokenAux rest
    else cssTokenAux rest

/-- First match of `/@id=['"]([^'"]+)['"]/`: the captured group. -/
def idTokenAux : List Char → Option String
  | [] => none
  | c :: rest =>
    if c = '@' then
      match rest with
      | 'i' :: 'd' :: '=' :: q :: rest2 =>
        if isQuote q then
          let run := rest2.takeWhile (fun ch => !isQuote ch)
          if run.isEmpty then idTokenAux rest
          else
            match rest2.drop run.length with
            | q2 :: _ => if isQuote q2 then some (String.mk run) else idTokenAux rest
            | [] => idTokenAux rest
        else idTokenAux rest
      | _ => idTokenAux rest
    else idTokenAux rest

/-- Tier-1 token normalization: lower-case the token and turn every
hyphen into an underscore. -/
def normalizeToken (t : String) : String :=
  String.mk ((t.data.map Char.toLower).map (fun c => if c = '-' then '_' else c))

/-- `HealerAgent.healTier1`: rewrite a class-like or id-like token into a
`getByTestId` lookup (the class token is normalized, the xpath id token
is used verbatim, as in the source). -/
def healTier1 (locator : String) : Option String :=
  match cssTokenAux locator.data with
  | some tok => some ("page.getByTestId(" ++ sq ++ normalizeToken tok ++ sq ++ ")")
  | none =>
    match idTokenAux locator.data with
    | some tok => some ("page.getByTestId(" ++ sq ++ tok ++ sq ++ ")")
    | none => none

/-- First match of `/['"]([^'"]{3,40})['"]/`: a quoted fragment of 3 to
40 characters. -/
def textFragAux : List Char → Option String
  | [] => none
  | c :: rest =>
    if isQuote c then
      let run := rest.takeWhile (fun ch => !isQuote ch)
      match rest.drop run.length with
      | _ :: _ =>
        if 3 ≤ run.length && run.length ≤ 40 then some (String.mk run)
        else textFragAux rest
      | [] => textFragAux rest
    else textFragAux rest

/-- `HealerAgent.healTier2`: pick a semantic query for the extracted text
fragment by matching the whole expression against the role keyword
families, in the source's order. -/
def healTier2 (locator : String) : Option String :=
  match textFragAux locator.data with
  | none => none
  | some text =>
    let low := lowerStr locator
    if strIncludes low "button" || strIncludes low "btn" || strIncludes low "submit" ||
        strIncludes low "cancel" then
      some ("page.getByRole(" ++ sq ++ "button" ++ sq ++ ", \x7b name: " ++ sq ++ text ++
        sq ++ " \x7d)")
    else if strIncludes low "input" || strIncludes low "field" || strIncludes low "email" ||
        strIncludes low "password" then
      some ("page.getByLabel(" ++ sq ++ text ++ sq ++ ")")
    else if strIncludes low "link" || strIncludes low "anchor" then
      some ("page.getByRole(" ++ sq ++ "link" ++ sq ++ ", \x7b name: " ++ sq ++ text ++
        sq ++ " \x7d)")
    else if strIncludes low "heading" || strIncludes low "title" || strIncludes low "h1" ||
        strIncludes low "h2" || strIncludes low "h3" || strIncludes low "h4" ||
        strIncludes low "h5" || strIncludes low "h6" then
      some ("page.getByRole(" ++ sq ++ "heading" ++ sq ++ ", \x7b name: " ++ sq ++ text ++
        sq ++ " \x7d)")
    else
      some ("page.getByText(" ++ sq ++ text ++ sq ++ ", \x7b exact: true \x7d)")

/-- `indexOf` of a char-list pattern, with the index of the first hit. -/
def strIndexOfAux (pat : List Char) : List Char → Nat → Option Nat
  | [], i => if pat.isEmpty then some i else none
  | c :: rest, i =>
    if pat.isPrefixOf (c :: rest) then some i else strIndexOfAux pat rest (i + 1)

/-- `HealerAgent.extractContext`: ±`lines`·80 characters of source around
the first occurrence of the target, empty when the target is absent. -/
def extractContext (target content : String) (lines : Nat) : String :=
  match strIndexOfAux target.data content.data 0 with
  | none => ""
  | some idx =>
    let start := idx - lines * 80
    let stop := min content.data.length (idx + target.data.length + lines * 80)
    String.mk ((content.data.drop start).take (stop - start))

/-- `HealerAgent.healTier3` with the generative collaborator's raw reply
supplied by the oracle `ai` (a function of the broken expression and the
extracted context): trim it and accept it only if it starts with
`page.` and stays under 200 characters. -/
def healTier3 (ai : String → String → String) (broken context : String) :
    Option String :=
  let text := trimStr (ai broken (extractContext broken context 5))
  if startsWithStr text "page." && decide (text.data.length < 200) then some text
  else none

/-! ### HealerAgent: per-locator healing and the file pass -/

/-- `LocatorTier` (`testid` / `semantic` / `ai`). -/
inductive LocatorTier where
  | testid
  | semantic
  | aiTier
deriving DecidableEq

/-- `HealResult` (confidence is the per-tier rational constant). -/
structure HealResult where
  original : String
  healed : String
  tier : LocatorTier
  confidence : ℚ
  attempts : Nat
  success : Bool
deriving DecidableEq

/-- `HealingReport`. -/
structure HealingReport where
  totalLocators : Nat
  healed : Nat
  failed : Nat
  results : List HealResult
deriving DecidableEq

/-- `HealerAgent.healLocator`: tiers in order 1 → 2 → 3, stopping at the
first success; on total failure the healed text is the original and the
success flag is false. -/
def healLocator (ai : String → String → String) (broken context : String) : HealResult :=
  match healTier1 broken with
  | some t1 =>
    { original := broken, healed := t1, tier := .testid, confidence := 0.95
      attempts := 1, success := true }
  | none =>
    match healTier2 broken with
    | some t2 =>
      { original := broken, healed := t2, tier := .semantic, confidence := 0.80
        attempts := 2, success := true }
    | none =>
      match healTier3 ai broken context with
      | some t3 =>
        { original := broken, healed := t3, tier := .aiTier, confidence := 0.65
          attempts := 3, success := true }
      | none =>
        { original := broken, healed := broken, tier := .aiTier, confidence := 0
          attempts := 3, success := false }

/-- JavaScript `String.prototype.replace` with a string pattern: replace
the first occurrence only. -/
def replaceFirstAux (pat repl : List Char) : List Char → List Char
  | [] => []
  | c :: rest =>
    if pat.isPrefixOf (c :: rest) then repl ++ (c :: rest).drop pat.length
    else c :: replaceFirstAux pat repl rest

/-- Replace the first occurrence of `pat` in `s` by `repl`. -/
def replaceFirst (s pat repl : String) : String :=
  if pat.data.isEmpty then repl ++ s
  else String.mk (replaceFirstAux pat.data repl.data s.data)

/-- `HealerAgent.healFile` on in-memory content: detect, heal each
locator against the current (already partially healed) content, apply
each success to the first textual occurrence, and report. The second
component is the single conditional write: `none` when the file is left
untouched, `some newContent` when it would be rewritten. -/
def healFile (ai : String → String → String) (content : String) :
    HealingReport × Option String :=
  let brokenLocators := detectBrokenLocators content
  if brokenLocators.isEmpty then (⟨0, 0, 0, []⟩, none)
  else
    let step := brokenLocators.foldl
      (fun (st : String × List HealResult) locator =>
        let r := healLocator ai locator st.1
        (if r.success then replaceFirst st.1 locator r.healed else st.1,
         st.2 ++ [r]))
      (content, [])
    let report : HealingReport :=
      { totalLocators := brokenLocators.length
        healed := (step.2.filter (fun r => r.success)).length
        failed := (step.2.filter (fun r => !r.success)).length
        results := step.2 }
    (report, if step.1 ≠ content then some step.1 else none)

/-! ### HealerAgent.healAndRerun -/

/-- The `while (current.failed > 0 && attempt < maxAttempts)` loop of
`healAndRerun`. `exec k` is the observed result of the k-th
re-execution (an oracle for the external runner); each cycle stamps the
result's `healAttempts` with the cycle number. The fuel argument is the
number of attempts still allowed (`maxAttempts - attempt`). -/
def healLoop (exec : Nat → TestExecutionResult) :
    Nat → Nat → TestExecutionResult → TestExecutionResult
  | _, 0, current => current
  | attempt, remaining + 1, current =>
    if 0 < current.failed then
      healLoop exec (attempt + 1) remaining
        { exec (attempt + 1) with healAttempts := attempt + 1 }
    else current

/-- Loop instrumentation: the value of the attempt counter when the loop
exits, i.e. the number of heal-and-re-execute cycles consumed. -/
def healCycles (exec : Nat → TestExecutionResult) :
    Nat → Nat → TestExecutionResult → Nat
  | attempt, 0, _ => attempt
  | attempt, remaining + 1, current =>
    if 0 < current.failed then
      healCycles exec (attempt + 1) remaining
        { exec (attempt + 1) with healAttempts := attempt + 1 }
    else attempt

/-- `HealerAgent.healAndRerun`: run the bounded loop from the initial
result, then stamp the final-success flag from the last observed failed
count. -/
def healAndRerun (exec : Nat → TestExecutionResult)
    (initialResult : TestExecutionResult) (maxAttempts : Nat) : TestExecutionResult :=
  let final := healLoop exec 0 maxAttempts initialResult
  { final with ultimatelyPassed := decide (final.failed = 0) }

/-! ## Theorems -/

/-- The classifier reads the failure record only through its error text. -/
theorem classifyIssue_congr (ft1 ft2 : FailedTest) (cs : List String)
    (reqs : List NetworkRequest) (h : ft1.error = ft2.error) :
    classifyIssue ft1 cs reqs = classifyIssue ft2 cs reqs := by
  simp only [classifyIssue, h]

/-- C3: the rule cascade is strictly prioritized. A failure whose error
text carries an environment signature is classified Environment Issue
regardless of the console and network inputs (in particular even when a
request has status ≥ 400); a failure without an environment signature
whose network log triggers the API-error test (status ≥ 400 or response
time above 3000 ms) is classified Backend Issue regardless of what the
error text reads. -/
theorem c3_classifier_priority (ft : FailedTest) (cs : List String)
    (reqs : List NetworkRequest) :
    (envSignature ft.error = true → classifyIssue ft cs reqs = .environmentIssue) ∧
    (envSignature ft.error = false → hasApiError reqs = true →
      classifyIssue ft cs reqs = .backendIssue) := by
  constructor
  · intro h
    simp only [envSignature] at h
    simp only [classifyIssue, h, if_true]
  · intro h1 h2
    simp only [envSignature] at h1
    simp only [hasApiError] at h2
    simp only [classifyIssue, h1, h2, if_true, Bool.false_eq_true, if_false]

/-- Failure record used to witness C3's environment branch. -/
def c3FtEnv : FailedTest :=
  { title := "t", file := "f", error := "connect ECONNREFUSED 127.0.0.1:443"
    screenshotPath := none, fullPageScreenshotPath := none, consoleErrors := []
    networkRequests := [], domSnapshot := none, rca := none }

/-- Failure record used to witness C3's backend branch: the error text
reads like a UI problem. -/
def c3FtUi : FailedTest :=
  { title := "t", file := "f", error := "element not visible"
    screenshotPath := none, fullPageScreenshotPath := none, consoleErrors := []
    networkRequests := [], domSnapshot := none, rca := none }

/-- A captured network entry with HTTP status 500. -/
def c3Req500 : NetworkRequest :=
  { method := some "GET", url := some "https://api.example.com/v1/login"
    status := some 500, responseTime := some 120 }

/-- Witness for C3: a connection-refused error together with a 500-status
request classifies as Environment Issue, and the same 500-status request
under a UI-sounding error with no environment signature classifies as
Backend Issue. -/
theorem c3_classifier_priority_witness :
    classifyIssue c3FtEnv [] [c3Req500] = .environmentIssue ∧
    classifyIssue c3FtUi [] [c3Req500] = .backendIssue :=
  ⟨(c3_classifier_priority c3FtEnv [] [c3Req500]).1 (by decide),
   (c3_classifier_priority c3FtUi [] [c3Req500]).2 (by decide) (by decide)⟩

/-- C7: the assigned category is a deterministic pure function of the
resolved error text, console-error list and network-request list — two
analyze calls whose resolved inputs agree yield the same category, for
any outcomes of the generative-collaborator call (success, failure, or
unusable output) — and that category is exactly the rule-cascade result,
computed independently of the collaborator. -/
theorem c7_category_pure (ft1 ft2 : FailedTest) (ev1 ev2 : Option TestEvidence)
    (o1 o2 : AIAnalysisOutcome)
    (herr : ft1.error = ft2.error)
    (hcs : (ev1.bind TestEvidence.consoleErrors).getD ft1.consoleErrors =
      (ev2.bind TestEvidence.consoleErrors).getD ft2.consoleErrors)
    (hnr : (ev1.bind TestEvidence.networkRequests).getD ft1.networkRequests =
      (ev2.bind TestEvidence.networkRequests).getD ft2.networkRequests) :
    (analyze ft1 ev1 o1).category = (analyze ft2 ev2 o2).category ∧
    (analyze ft1 ev1 o1).category =
      classifyIssue ft1 ((ev1.bind TestEvidence.consoleErrors).getD ft1.consoleErrors)
        ((ev1.bind TestEvidence.networkRequests).getD ft1.networkRequests) := by
  constructor
  · show classifyIssue ft1 _ _ = classifyIssue ft2 _ _
    rw [hcs, hnr]
    exact classifyIssue_congr ft1 ft2 _ _ herr
  · rfl

/-- Witness for C7: the same failure record analyzed once with a throwing
collaborator call and once with a parsed reply gets the same category,
equal to the cascade's verdict. -/
theorem c7_category_pure_witness :
    (analyze c3FtUi none none).category =
      (analyze c3FtUi none (some (some "model reason", some "model fix"))).category ∧
    (analyze c3FtUi none none).category = classifyIssue c3FtUi [] [] :=
  c7_category_pure c3FtUi c3FtUi none none none
    (some (some "model reason", some "model fix")) rfl rfl rfl

/-- Claim-side status resolution: the status of the last entry of the
test's results list, falling back to the test-level status when that
list is absent or empty. -/
def lastAttemptStatus (t : PwTest) : PwStatus :=
  ((t.results.bind List.getLast?).map PwTestResult.status).getD t.status

/-- First attempt of the in-process-retry scenario: failed. -/
def retryFirstAttempt : PwTestResult :=
  { status := .failed, error := some { message := some "boom", stack := none },
    attachments := none, duration := 5 }

/-- Second attempt of the retry scenario: passed. -/
def retrySecondAttempt : PwTestResult :=
  { status := .passed, error := none, attachments := none, duration := 7 }

/-- The retried test: test-level status `failed`, attempts failed-then-passed. -/
def retryTest : PwTest :=
  { status := .failed, results := some [retryFirstAttempt, retrySecondAttempt] }

/-- The spec holding the retried test. -/
def retrySpec : PwSpec :=
  { title := "retries then passes", file := some "login.spec.ts", ok := true,
    tests := some [retryTest] }

/-- Aggregate stats of the retry report. -/
def retryStats : PwStats :=
  { expected := some 1, unexpected := some 0, skipped := some 0, duration := some 12 }

/-- The whole two-attempt report. -/
def retryReport : PwJsonReport :=
  { stats := some retryStats, suites := some [.mk "login" (some [retrySpec]) none] }

/-- C2: `parseReport` counts each test by the status of the last entry of
its results list, falling back to the test-level status only when that
list is absent or empty (`lastAttemptStatus`); each visited test bumps
exactly the tally bucket of that status and synthesizes a failure record
only when it is neither passed nor skipped. In particular the
two-attempt failed-then-passed report counts passed=1, failed=0 with no
failure record. -/
theorem c2_last_attempt_counting (targetFile title : String) (file : Option String)
    (acc : ParseTally) (t : PwTest) (sp : PwSpec) :
    visitSpec targetFile acc sp =
      (sp.tests.getD []).foldl (visitTest targetFile sp.title sp.file) acc ∧
    (visitTest targetFile title file acc t).passed =
      acc.passed + (if lastAttemptStatus t = .passed then 1 else 0) ∧
    (visitTest targetFile title file acc t).skipped =
      acc.skipped + (if lastAttemptStatus t = .skipped then 1 else 0) ∧
    (visitTest targetFile title file acc t).failed =
      acc.failed +
        (if lastAttemptStatus t = .passed ∨ lastAttemptStatus t = .skipped then 0 else 1) ∧
    (visitTest targetFile title file acc t).failedTests.length =
      acc.failedTests.length +
        (if lastAttemptStatus t = .passed ∨ lastAttemptStatus t = .skipped then 0 else 1) ∧
    parseReport retryReport "login.spec.ts" = ⟨1, 0, 0, []⟩ := by
  refine ⟨rfl, ?_, ?_, ?_, ?_, ?_⟩
  case refine_5 =>
    simp [parseReport, visitSuiteList, visitSuite, visitSpec, visitTest, retryReport,
      retryStats, retrySpec, retryTest, retryFirstAttempt, retrySecondAttempt]
  all_goals
    unfold visitTest lastAttemptStatus
    obtain ⟨ts, tres⟩ := t
    rcases hr : tres.bind List.getLast? with _ | r
    · simp only [hr, Option.map_none', Option.getD_none]
      rcases ts with _ | _ | _ | _ <;> simp
    · simp only [hr, Option.map_some', Option.getD_some]
      obtain ⟨rs, rerr, ratt, rdur⟩ := r
      rcases rs with _ | _ | _ | _ <;> simp

/-- An empty evidence directory (no directory, no files, no content). -/
def emptyEvidenceDir : EvidenceDir :=
  { present := false, files := [], content := fun _ => none }

/-- C1 (amended): whenever the captured stream has no parseable JSON
report — `parseJsonString` yields `none`, which covers the empty or
whitespace stream, a stream with no opening-brace boundary, and a decode
failure on the brace-suffixed slice — `executeTest` returns (never
throws) a result that treats the artifact as one opaque item: total = 1,
no failure records, and failed = 1 exactly when the runner process
exited non-zero (failed = 0 on a zero exit). -/
theorem c1_unparseable_one_opaque_result (decode : String → Option PwJsonReport)
    (d : EvidenceDir) (parseEvidence : String → Option TestEvidence) (raw : String)
    (exitedOk : Bool) (fp ty : String) (dur : Nat)
    (h : parseJsonString decode raw = none) :
    executeTest decode d parseEvidence raw exitedOk fp ty dur =
      { filePath := fp, type := ty, passed := 0, failed := if exitedOk then 0 else 1,
        skipped := 0, total := 1, durationMs := dur, failedTests := [],
        healAttempts := 0, ultimatelyPassed := exitedOk } ∧
    ((trimStr raw).data.isEmpty = true → parseJsonString decode raw = none) ∧
    (raw.data.findIdx? (fun c => c = '{') = none → parseJsonString decode raw = none) ∧
    (∀ i, raw.data.findIdx? (fun c => c = '{') = some i →
      decode (raw.drop i) = none → parseJsonString decode raw = none) := by
  refine ⟨?_, ?_, ?_, ?_⟩
  · unfold executeTest
    rw [h]
  · intro he
    unfold parseJsonString
    rw [if_pos he]
  · intro hb
    unfold parseJsonString
    rcases hemp : (trimStr raw).data.isEmpty with _ | _
    · simp [hemp, hb]
    · simp
  · intro i hb hdec
    unfold parseJsonString
    rcases hemp : (trimStr raw).data.isEmpty with _ | _
    · simp [hemp, hb, hdec]
    · simp

/-- Witness for C1 (amended): a crashed runner (non-zero exit) with an
empty stream yields the one-opaque-failure result. -/
theorem c1_unparseable_one_opaque_result_witness :
    executeTest (fun _ => none) emptyEvidenceDir (fun _ => none) "" false
      "login.spec.ts" "ui" 42 =
      { filePath := "login.spec.ts", type := "ui", passed := 0, failed := 1,
        skipped := 0, total := 1, durationMs := 42, failedTests := [],
        healAttempts := 0, ultimatelyPassed := false } :=
  (c1_unparseable_one_opaque_result (fun _ => none) emptyEvidenceDir (fun _ => none)
    "" false "login.spec.ts" "ui" 42 rfl).1

/-- Counterexample to C1 as stated: when the runner exits zero and the
stream is unparseable (here: empty), the returned result has failed = 0,
not 1 — so "failed == 1 regardless of the runner process's exit status"
is false on the code. -/
theorem c1_as_stated_counterexample :
    (executeTest (fun _ => none) emptyEvidenceDir (fun _ => none) "" true
      "login.spec.ts" "ui" 42).failed = 0 ∧
    ¬ (executeTest (fun _ => none) emptyEvidenceDir (fun _ => none) "" true
      "login.spec.ts" "ui" 42).failed = 1 :=
  ⟨rfl, by decide⟩

/-- C8: evidence reconciliation. When a record's title matches an
evidence file (exact slug name or fuzzy fallback — i.e.
`findEvidenceFile` succeeds) whose content parses and carries the four
captured fields, the overlay replaces the record's screenshot path,
console errors, network requests and DOM snapshot wholesale (no
merging); when no evidence file matches, the record is returned
unchanged (and the function is total — no error is raised);
`enrichWithEvidence` is exactly this overlay mapped over the records. -/
theorem c8_evidence_overlay (d : EvidenceDir) (parseEvidence : String → Option TestEvidence)
    (ft : FailedTest) :
    (∀ name raw evd sp ce nr ds,
      findEvidenceFile d ft.title = some name →
      d.content name = some raw →
      parseEvidence raw = some evd →
      evd.screenshotPath = some sp → evd.consoleErrors = some ce →
      evd.networkRequests = some nr → evd.domSnapshot = some ds →
      enrichOne d parseEvidence ft =
        { ft with fullPageScreenshotPath := some sp, consoleErrors := ce,
                  networkRequests := nr, domSnapshot := some ds }) ∧
    (findEvidenceFile d ft.title = none → enrichOne d parseEvidence ft = ft) ∧
    (∀ fts : List FailedTest,
      enrichWithEvidence d parseEvidence fts = fts.map (enrichOne d parseEvidence)) := by
  refine ⟨?_, ?_, fun _ => rfl⟩
  · intro name raw evd sp ce nr ds hfind hread hparse hsp hce hnr hds
    unfold enrichOne
    simp [hfind, hread, hparse, hsp, hce, hnr, hds]
  · intro hfind
    unfold enrichOne
    rw [hfind]

/-- Evidence directory used to witness C8: one exact-slug evidence file. -/
def c8Dir : EvidenceDir :=
  { present := true, files := ["login-shows-error.json"],
    content := fun name =>
      if name = "login-shows-error.json" then some "evidence-json" else none }

/-- Parsed evidence used to witness C8. -/
def c8Evidence : TestEvidence :=
  { screenshotPath := some "test-results/screenshots/login-shows-error.png",
    consoleErrors := some ["[ERROR] boom"],
    networkRequests := some [c3Req500],
    domSnapshot := some "<html></html>" }

/-- Failure record used to witness C8. -/
def c8Ft : FailedTest :=
  { title := "Login shows error", file := "login.spec.ts", error := "expect failed",
    screenshotPath := none, fullPageScreenshotPath := some "old.png",
    consoleErrors := ["old console"], networkRequests := [], domSnapshot := none,
    rca := none }

/-- Witness for C8: the matched evidence file's fields replace the
record's fields. -/
theorem c8_evidence_overlay_witness :
    enrichOne c8Dir (fun raw => if raw = "evidence-json" then some c8Evidence else none)
        c8Ft =
      { c8Ft with
        fullPageScreenshotPath := some "test-results/screenshots/login-shows-error.png",
        consoleErrors := ["[ERROR] boom"], networkRequests := [c3Req500],
        domSnapshot := some "<html></html>" } :=
  (c8_evidence_overlay c8Dir
    (fun raw => if raw = "evidence-json" then some c8Evidence else none) c8Ft).1
    "login-shows-error.json" "evidence-json" c8Evidence
    "test-results/screenshots/login-shows-error.png" ["[ERROR] boom"] [c3Req500]
    "<html></html>" (by decide) (by decide) (by decide) rfl rfl rfl rfl

/-- C9: a clean pass. When the detection patterns find zero brittle
locators in the source text, `healFile` reports totalLocators = 0,
healed = 0, failed = 0 and performs no write (the write component is
`none`, leaving the file byte-for-byte unchanged). -/
theorem c9_clean_pass_no_write (ai : String → String → String) (content : String)
    (h : detectBrokenLocators content = []) :
    healFile ai content = (⟨0, 0, 0, []⟩, none) := by
  unfold healFile
  rw [h]
  rfl

/-- Witness for C9: a stable-locator source line detects no brittle
locators, and the healer leaves it untouched. -/
theorem c9_clean_pass_no_write_witness :
    healFile (fun _ _ => "")
        ("await page.getByTestId(" ++ sq ++ "submit" ++ sq ++ ").click();") =
      (⟨0, 0, 0, []⟩, none) :=
  c9_clean_pass_no_write (fun _ _ => "")
    ("await page.getByTestId(" ++ sq ++ "submit" ++ sq ++ ").click();") (by decide)

/-- The brittle class-selector locator of the healing scenario. -/
def brittleSubmitBtn : String := "page.locator(" ++ sq ++ ".submit-btn" ++ sq ++ ")"

/-- C5: per-locator healing tries the tiers strictly in order 1 → 2 → 3
and stops at the first success. When tier 1 succeeds, the result is the
tier-1 rewrite with attempts = 1 (for every generative oracle — tiers 2
and 3 contribute nothing); when tier 1 fails and tier 2 succeeds, the
result is the tier-2 rewrite with attempts = 2 (again for every
oracle); when both fail, attempts = 3 and the result is tier 3's
verdict — on total failure the healed text equals the original
expression and the success flag is false. -/
theorem c5_tier_order (ai : String → String → String) (broken context : String) :
    (∀ t1, healTier1 broken = some t1 →
      healLocator ai broken context =
        { original := broken, healed := t1, tier := .testid, confidence := 0.95,
          attempts := 1, success := true }) ∧
    (healTier1 broken = none → ∀ t2, healTier2 broken = some t2 →
      healLocator ai broken context =
        { original := broken, healed := t2, tier := .semantic, confidence := 0.80,
          attempts := 2, success := true }) ∧
    (healTier1 broken = none → healTier2 broken = none →
      healLocator ai broken context =
        match healTier3 ai broken context with
        | some t3 =>
          { original := broken, healed := t3, tier := .aiTier, confidence := 0.65,
            attempts := 3, success := true }
        | none =>
          { original := broken, healed := broken, tier := .aiTier, confidence := 0,
            attempts := 3, success := false }) := by
  refine ⟨?_, ?_, ?_⟩
  · intro t1 h1
    unfold healLocator
    rw [h1]
  · intro h1 t2 h2
    unfold healLocator
    rw [h1, h2]
  · intro h1 h2
    unfold healLocator
    rw [h1, h2]

/-- Witness for C5: on the brittle class-selector locator tier 1
succeeds, so healing stops there with attempts = 1, independently of
the generative oracle. -/
theorem c5_tier_order_witness :
    healLocator (fun _ _ => "page.getByRole(" ++ sq ++ "button" ++ sq ++ ")")
        brittleSubmitBtn "" =
      { original := brittleSubmitBtn,
        healed := "page.getByTestId(" ++ sq ++ "locator" ++ sq ++ ")",
        tier := .testid, confidence := 0.95, attempts := 1, success := true } :=
  (c5_tier_order (fun _ _ => "page.getByRole(" ++ sq ++ "button" ++ sq ++ ")")
    brittleSubmitBtn "").1 _ rfl

/-- C4: evaluating the code at the claim's own input. Healing
`page.locator('.submit-btn')` does stop at tier 1 with tier `testid`,
confidence 0.95 and attempt count 1, but the class-token regex matches
the `.locator` segment of the `page.locator(` prefix first, so the
produced lookup is `page.getByTestId('locator')` — not the claimed
`page.getByTestId('submit_btn')`. -/
theorem c4_code_eval_submit_btn :
    healTier1 brittleSubmitBtn =
      some ("page.getByTestId(" ++ sq ++ "locator" ++ sq ++ ")") ∧
    healLocator (fun _ _ => "") brittleSubmitBtn "" =
      { original := brittleSubmitBtn,
        healed := "page.getByTestId(" ++ sq ++ "locator" ++ sq ++ ")",
        tier := .testid, confidence := 0.95, attempts := 1, success := true } ∧
    ("page.getByTestId(" ++ sq ++ "locator" ++ sq ++ ")" : String) ≠
      "page.getByTestId(" ++ sq ++ "submit_btn" ++ sq ++ ")" :=
  ⟨rfl, rfl, by decide⟩

/-- Every string emitted by the global scan is a match of the pattern. -/
theorem mem_scanAllAux (tryM : List Char → Option (List Char × List Char)) :
    ∀ (fuel : Nat) (l : List Char) (y : String), y ∈ scanAllAux tryM fuel l →
      ∃ s m rem, tryM s = some (m, rem) ∧ y = String.mk m := by
  intro fuel
  induction fuel with
  | zero => intro l y hy; simp [scanAllAux] at hy
  | succ n ih =>
    intro l y hy
    cases l with
    | nil => simp [scanAllAux] at hy
    | cons c rest =>
      unfold scanAllAux at hy
      rcases htry : tryM (c :: rest) with _ | ⟨m, rem⟩ <;> rw [htry] at hy
      · exact ih rest y hy
      · rcases List.mem_cons.mp hy with h | h
        · exact ⟨c :: rest, m, rem, htry, h⟩
        · exact ih rem y h

/-- Deduplication only drops elements, it never invents them. -/
theorem mem_dedupAux :
    ∀ (l seen : List String) (y : String), y ∈ dedupAux seen l → y ∈ l := by
  intro l
  induction l with
  | nil => intro seen y hy; simp [dedupAux] at hy
  | cons x xs ih =>
    intro seen y hy
    unfold dedupAux at hy
    by_cases hx : seen.contains x = true
    · rw [if_pos hx] at hy
      exact List.mem_cons_of_mem _ (ih _ y hy)
    · rw [if_neg hx] at hy
      rcases List.mem_cons.mp hy with h | h
      · exact h ▸ List.mem_cons_self x xs
      · exact List.mem_cons_of_mem _ (ih _ y h)

/-- Every match of a head-anchored pattern starts with the literal head. -/
theorem tryHeadThen_shape (tail : List Char → Option (List Char × List Char))
    (s m rem : List Char) (h : tryHeadThen tail s = some (m, rem)) :
    ∃ t, m = pageLocHead.data ++ t := by
  unfold tryHeadThen at h
  rcases h1 : stripL pageLocHead.data s with _ | r1 <;> rw [h1] at h
  · exact absurd h (by simp)
  · have h' : (match tail r1 with
        | none => none
        | some (mt, rem) => some (pageLocHead.data ++ mt, rem)) = some (m, rem) := h
    rcases h2 : tail r1 with _ | ⟨mt, rem2⟩ <;> rw [h2] at h'
    · exact absurd h' (by simp)
    · refine ⟨mt, ?_⟩
      have := (Option.some.injEq _ _).mp h'
      exact (congrArg Prod.fst this).symm

/-- A literal list is a Boolean prefix of itself followed by anything. -/
theorem isPrefixOf_append_self (l t : List Char) : l.isPrefixOf (l ++ t) = true := by
  induction l with
  | nil => simp [List.isPrefixOf]
  | cons c cs ih => simp [List.isPrefixOf, ih]

/-- Every locator produced by the detector extends the literal
`page.locator(` head. -/
theorem detect_shape (content loc : String) (hmem : loc ∈ detectBrokenLocators content) :
    ∃ t, loc = String.mk (pageLocHead.data ++ t) := by
  unfold detectBrokenLocators at hmem
  have h1 := mem_dedupAux _ _ _ hmem
  have h2 : ∃ s m rem, (tryLocPat1 s = some (m, rem) ∨ tryLocPat2 s = some (m, rem) ∨
      tryLocPat3 s = some (m, rem)) ∧ loc = String.mk m := by
    rcases List.mem_append.mp h1 with h | h
    · rcases List.mem_append.mp h with h | h
      · obtain ⟨s, m, rem, hs, he⟩ := mem_scanAllAux tryLocPat1 _ _ _ h
        exact ⟨s, m, rem, Or.inl hs, he⟩
      · obtain ⟨s, m, rem, hs, he⟩ := mem_scanAllAux tryLocPat2 _ _ _ h
        exact ⟨s, m, rem, Or.inr (Or.inl hs), he⟩
    · obtain ⟨s, m, rem, hs, he⟩ := mem_scanAllAux tryLocPat3 _ _ _ h
      exact ⟨s, m, rem, Or.inr (Or.inr hs), he⟩
  obtain ⟨s, m, rem, hs, he⟩ := h2
  have hm : ∃ t, m = pageLocHead.data ++ t := by
    rcases hs with hs | hs | hs
    · exact tryHeadThen_shape tailPat1 s m rem hs
    · exact tryHeadThen_shape tailPat2 s m rem hs
    · exact tryHeadThen_shape tailPat3 s m rem hs
  obtain ⟨t, ht⟩ := hm
  exact ⟨t, by rw [he, ht]⟩

/-- Tier 1 on any string extending the `page.locator(` head: the class
regex finds the dot of `.locator` first, captures `locator`, and the
greedy run stops at the opening parenthesis, whatever follows. -/
theorem healTier1_pageLoc (t : List Char) :
    healTier1 (String.mk (pageLocHead.data ++ t)) =
      some ("page.getByTestId(" ++ sq ++ "locator" ++ sq ++ ")") := rfl

/-- C10: every locator the detector can produce starts with the text
`page.locator(`, tier 1's class-token pattern already matches the
`.locator` segment of that prefix, so tier 1 succeeds on every detected
locator with the rewrite `page.getByTestId('locator')` — and per-locator
healing therefore always stops at tier 1 (tiers 2 and 3 are unreachable
from `healFile`), for every generative oracle and context. -/
theorem c10_tier1_shadows_all (content loc : String)
    (hmem : loc ∈ detectBrokenLocators content) :
    startsWithStr loc pageLocHead = true ∧
    healTier1 loc = some ("page.getByTestId(" ++ sq ++ "locator" ++ sq ++ ")") ∧
    ∀ ai context, healLocator ai loc context =
      { original := loc, healed := "page.getByTestId(" ++ sq ++ "locator" ++ sq ++ ")",
        tier := .testid, confidence := 0.95, attempts := 1, success := true } := by
  obtain ⟨t, ht⟩ := detect_shape content loc hmem
  subst ht
  refine ⟨?_, healTier1_pageLoc t, ?_⟩
  · unfold startsWithStr
    exact isPrefixOf_append_self pageLocHead.data t
  · intro ai context
    unfold healLocator
    rw [healTier1_pageLoc t]

/-- Source text used to witness C10. -/
def c10Content : String := "await " ++ brittleSubmitBtn ++ ".click();"

/-- Witness for C10: the detector finds the brittle locator in the
witness source, and healing it stops at tier 1 with the
`page.getByTestId('locator')` rewrite. -/
theorem c10_tier1_shadows_all_witness :
    startsWithStr brittleSubmitBtn pageLocHead = true ∧
    healLocator (fun _ _ => "page.xyz") brittleSubmitBtn c10Content =
      { original := brittleSubmitBtn,
        healed := "page.getByTestId(" ++ sq ++ "locator" ++ sq ++ ")",
        tier := .testid, confidence := 0.95, attempts := 1, success := true } :=
  ⟨(c10_tier1_shadows_all c10Content brittleSubmitBtn (by decide)).1,
   (c10_tier1_shadows_all c10Content brittleSubmitBtn (by decide)).2.2
     (fun _ _ => "page.xyz") c10Content⟩

/-- One unfolding step of the loop body. -/
theorem healLoop_succ (exec : Nat → TestExecutionResult) (attempt r : Nat)
    (current : TestExecutionResult) :
    healLoop exec attempt (r + 1) current =
      if 0 < current.failed then
        healLoop exec (attempt + 1) r { exec (attempt + 1) with
          healAttempts := attempt + 1 }
      else current := by
  conv_lhs => rw [healLoop.eq_def]

/-- One unfolding step of the cycle counter. -/
theorem healCycles_succ (exec : Nat → TestExecutionResult) (attempt r : Nat)
    (current : TestExecutionResult) :
    healCycles exec attempt (r + 1) current =
      if 0 < current.failed then
        healCycles exec (attempt + 1) r { exec (attempt + 1) with
          healAttempts := attempt + 1 }
      else attempt := by
  conv_lhs => rw [healCycles.eq_def]

/-- Full invariant of the heal-and-rerun loop, proved by induction on
the remaining fuel: the cycle counter is monotone and bounded, a clean
current result exits immediately, every intermediate re-execution still
failed, the loop result is the last observed re-execution stamped with
its cycle number, and an early exit is explained by a clean result. -/
theorem healLoop_invariant (exec : Nat → TestExecutionResult) :
    ∀ (remaining attempt : Nat) (current : TestExecutionResult),
      attempt ≤ healCycles exec attempt remaining current ∧
      healCycles exec attempt remaining current ≤ attempt + remaining ∧
      (current.failed = 0 → healCycles exec attempt remaining current = attempt ∧
        healLoop exec attempt remaining current = current) ∧
      (∀ k, attempt < k → k < healCycles exec attempt remaining current →
        (exec k).failed ≠ 0) ∧
      (attempt < healCycles exec attempt remaining current →
        healLoop exec attempt remaining current =
          { exec (healCycles exec attempt remaining current) with
            healAttempts := healCycles exec attempt remaining current }) ∧
      (healCycles exec attempt remaining current = attempt →
        healLoop exec attempt remaining current = current) ∧
      (healCycles exec attempt remaining current < attempt + remaining →
        current.failed = 0 ∨ (attempt < healCycles exec attempt remaining current ∧
          (exec (healCycles exec attempt remaining current)).failed = 0)) := by
  intro remaining
  induction remaining with
  | zero =>
    intro attempt current
    refine ⟨Nat.le_refl _, Nat.le_refl _, fun _ => ⟨rfl, rfl⟩, ?_, ?_, fun _ => rfl, ?_⟩
    · intro k hk1 hk2
      exact absurd (Nat.lt_trans hk1 hk2) (Nat.lt_irrefl _)
    · intro hlt
      exact absurd hlt (Nat.lt_irrefl _)
    · intro hlt
      exact absurd hlt (Nat.lt_irrefl _)
  | succ r ih =>
    intro attempt current
    by_cases hf : 0 < current.failed
    · have hcyc : healCycles exec attempt (r + 1) current =
          healCycles exec (attempt + 1) r { exec (attempt + 1) with
            healAttempts := attempt + 1 } := by
        rw [healCycles_succ, if_pos hf]
      have hloop : healLoop exec attempt (r + 1) current =
          healLoop exec (attempt + 1) r { exec (attempt + 1) with
            healAttempts := attempt + 1 } := by
        rw [healLoop_succ, if_pos hf]
      obtain ⟨i1, i2, i3, i4, i5, i6, i7⟩ :=
        ih (attempt + 1) { exec (attempt + 1) with healAttempts := attempt + 1 }
      rw [hcyc, hloop]
      have hcfail : ({ exec (attempt + 1) with healAttempts := attempt + 1 } :
          TestExecutionResult).failed = (exec (attempt + 1)).failed := rfl
      refine ⟨Nat.le_trans (Nat.le_succ attempt) i1, by omega,
        fun h0 => absurd h0 (by omega), ?_, ?_, fun heq => absurd heq (by omega), ?_⟩
      · intro k hk1 hk2
        by_cases hk : attempt + 1 < k
        · exact i4 k hk hk2
        · have hkeq : k = attempt + 1 := by omega
          subst hkeq
          intro hzero
          have hc0 : ({ exec (attempt + 1) with healAttempts := attempt + 1 } :
              TestExecutionResult).failed = 0 := by rw [hcfail]; exact hzero
          have := (i3 hc0).1
          omega
      · intro _
        by_cases hlt : attempt + 1 < healCycles exec (attempt + 1) r
            { exec (attempt + 1) with healAttempts := attempt + 1 }
        · exact i5 hlt
        · have heq : healCycles exec (attempt + 1) r
              { exec (attempt + 1) with healAttempts := attempt + 1 } = attempt + 1 := by
            omega
          rw [heq] at i6 ⊢
          exact i6 rfl
      · intro hlt
        have hlt2 : healCycles exec (attempt + 1) r
            { exec (attempt + 1) with healAttempts := attempt + 1 } < (attempt + 1) + r := by
          omega
        rcases i7 hlt2 with h | h
        · right
          have := (i3 h).1
          constructor
          · omega
          · rw [this, ← hcfail]
            exact h
        · exact Or.inr ⟨by omega, h.2⟩
    · have h0 : current.failed = 0 := by omega
      have hcyc : healCycles exec attempt (r + 1) current = attempt := by
        rw [healCycles_succ, if_neg hf]
      have hloop : healLoop exec attempt (r + 1) current = current := by
        rw [healLoop_succ, if_neg hf]
      rw [hcyc, hloop]
      refine ⟨Nat.le_refl _, by omega, fun _ => ⟨rfl, rfl⟩, ?_, ?_, fun _ => rfl,
        fun _ => Or.inl h0⟩
      · intro k hk1 hk2
        exact absurd (Nat.lt_trans hk1 hk2) (Nat.lt_irrefl _)
      · intro hlt
        exact absurd hlt (Nat.lt_irrefl _)

/-- C6 (amended): for every initial result, re-execution oracle and
bound N, `healAndRerun` terminates (it is a total function) after at
most N heal-and-re-execute cycles; it performs zero cycles when the
initial result already has failed = 0 (returning it with only the
final-success flag set), every cycle before the last still failed
(stop at the first clean re-execution), the returned result is the last
observed re-execution with `healAttempts` stamped with the number of
cycles consumed whenever at least one cycle ran, `ultimatelyPassed`
always equals (failed = 0) of the returned result, and an early exit
(fewer than N cycles) happens only because the initial result or the
last re-execution was clean. When zero cycles run, `healAttempts` keeps
the initial result's value. -/
theorem c6_heal_loop_amended (exec : Nat → TestExecutionResult)
    (initial : TestExecutionResult) (maxAttempts : Nat) :
    healCycles exec 0 maxAttempts initial ≤ maxAttempts ∧
    (initial.failed = 0 → healCycles exec 0 maxAttempts initial = 0 ∧
      healAndRerun exec initial maxAttempts = { initial with ultimatelyPassed := true }) ∧
    (∀ k, 0 < k → k < healCycles exec 0 maxAttempts initial → (exec k).failed ≠ 0) ∧
    (0 < healCycles exec 0 maxAttempts initial →
      healAndRerun exec initial maxAttempts =
        { exec (healCycles exec 0 maxAttempts initial) with
          healAttempts := healCycles exec 0 maxAttempts initial,
          ultimatelyPassed :=
            decide ((exec (healCycles exec 0 maxAttempts initial)).failed = 0) }) ∧
    (healAndRerun exec initial maxAttempts).ultimatelyPassed =
      decide ((healAndRerun exec initial maxAttempts).failed = 0) ∧
    (healCycles exec 0 maxAttempts initial < maxAttempts →
      initial.failed = 0 ∨ (0 < healCycles exec 0 maxAttempts initial ∧
        (exec (healCycles exec 0 maxAttempts initial)).failed = 0)) := by
  obtain ⟨i1, i2, i3, i4, i5, i6, i7⟩ := healLoop_invariant exec maxAttempts 0 initial
  refine ⟨by omega, ?_, i4, ?_, rfl, by simpa using i7⟩
  · intro h0
    obtain ⟨hc, hl⟩ := i3 h0
    refine ⟨hc, ?_⟩
    unfold healAndRerun
    rw [hl]
    simp [h0]
  · intro hpos
    have h5 := i5 hpos
    unfold healAndRerun
    rw [h5]

/-- Passing result used by the C6 witness oracle. -/
def c6PassResult : TestExecutionResult :=
  { filePath := "login.spec.ts", type := "ui", passed := 2, failed := 0, skipped := 0,
    total := 2, durationMs := 10, failedTests := [], healAttempts := 0,
    ultimatelyPassed := false }

/-- Failing initial result for the C6 witness. -/
def c6FailResult : TestExecutionResult :=
  { filePath := "login.spec.ts", type := "ui", passed := 1, failed := 1, skipped := 0,
    total := 2, durationMs := 12, failedTests := [], healAttempts := 0,
    ultimatelyPassed := false }

/-- Witness for C6 (amended): from a failing initial result with every
re-execution passing, the loop consumes exactly one cycle and returns
the re-executed result stamped with healAttempts = 1 and
ultimatelyPassed = true. -/
theorem c6_heal_loop_amended_witness :
    healCycles (fun _ => c6PassResult) 0 3 c6FailResult = 1 ∧
    healAndRerun (fun _ => c6PassResult) c6FailResult 3 =
      { c6PassResult with healAttempts := 1, ultimatelyPassed := true } := by
  refine ⟨by decide, ?_⟩
  have h4 := (c6_heal_loop_amended (fun _ => c6PassResult) c6FailResult 3).2.2.2.1
    (by decide)
  exact h4

/-- Initial result refuting C6 as stated: it already has failed = 0 but
carries healAttempts = 5. -/
def c6OddInitial : TestExecutionResult :=
  { filePath := "login.spec.ts", type := "ui", passed := 2, failed := 0, skipped := 0,
    total := 2, durationMs := 10, failedTests := [], healAttempts := 5,
    ultimatelyPassed := false }

/-- Counterexample to C6 as stated: with an initial result that already
has failed = 0 (zero cycles consumed) but healAttempts = 5, the returned
result keeps healAttempts = 5, so "healAttempts equal to the number of
cycles consumed" fails for this initial result. -/
theorem c6_as_stated_counterexample :
    healCycles (fun _ => c6PassResult) 0 3 c6OddInitial = 0 ∧
    (healAndRerun (fun _ => c6PassResult) c6OddInitial 3).healAttempts = 5 ∧
    (5 : Nat) ≠ 0 :=
  ⟨rfl, rfl, by decide⟩

end QIA
